import Mathlib

/-!
Verification of the ai-orchestrator core (providers, provider manager,
intelligent router, route executor, model registry) against its
natural-language specification.

The TypeScript sources are shallowly embedded:
* JavaScript numbers are modelled as exact rationals (`ℚ`) and counters as `ℕ`.
* `Promise`-returning remote calls are modelled by passing the call's outcome
  (`Except JsError response`) as an explicit argument; the embedded functions
  capture all control flow the repository performs around those calls.
* JavaScript's `||` default operator is falsy on `0`, `""` and `undefined`;
  the helpers `jsOrQ`, `jsOrNat`, `jsOrStr` reproduce exactly that semantics.
* Thrown `Error` objects are modelled by `JsError` (optional numeric `status`,
  `message` string), and `throw`/`catch` by `Except`.
-/

-- =============================================================================
-- JavaScript-semantics helpers
-- =============================================================================

/-- Substring test on character lists: `pat` occurs contiguously in `s`. -/
def listContains (pat : List Char) : List Char → Bool
  | [] => pat.isEmpty
  | c :: rest => pat.isPrefixOf (c :: rest) || listContains pat rest

/-- JavaScript `String.prototype.includes`: substring containment. -/
def strContains (s pat : String) : Bool :=
  listContains pat.toList s.toList

/-- JavaScript `a || d` for an optional number `a`: `0` and `undefined` are falsy. -/
def jsOrQ (o : Option ℚ) (d : ℚ) : ℚ :=
  match o with
  | none => d
  | some x => if x = 0 then d else x

/-- JavaScript `a || d` for an optional natural number: `0` and `undefined` are falsy. -/
def jsOrNat (o : Option ℕ) (d : ℕ) : ℕ :=
  match o with
  | none => d
  | some n => if n = 0 then d else n

/-- JavaScript `a || d` for an optional string: `""` and `undefined` are falsy. -/
def jsOrStr (o : Option String) (d : String) : String :=
  match o with
  | none => d
  | some s => if s = "" then d else s

/-- A thrown JavaScript `Error`, as inspected by the adapters: an optional
HTTP `status` field and a `message`. -/
structure JsError where
  status : Option ℕ
  message : String
deriving DecidableEq, Repr

deriving instance DecidableEq for Except

-- =============================================================================
-- providers.ts: shared types
-- =============================================================================

/-- providers.ts `ChatResult.usage`. -/
structure Usage where
  inputTokens : ℕ
  outputTokens : ℕ
deriving DecidableEq, Repr

/-- providers.ts `ChatResult`: the uniform adapter result. -/
structure ChatResult where
  content : String
  provider : String
  model : String
  usage : Option Usage
deriving DecidableEq, Repr

-- =============================================================================
-- model-registry.ts
-- =============================================================================

/-- model-registry.ts `Provider`. -/
inductive MRProvider
  | anthropic
  | openai
  | google
deriving DecidableEq, Repr

/-- model-registry.ts `ModelTier`. -/
inductive ModelTier
  | flagship
  | balanced
  | fast
  | budget
deriving DecidableEq, Repr

/-- model-registry.ts `RouteType`. -/
inductive Route
  | fast
  | standard
  | deep
  | creative
  | research
deriving DecidableEq, Repr

/-- model-registry.ts `ModelConfig` (the fields the core reads; the
informational `alias`, `features` and `notes` fields are not consulted by any
embedded operation and are omitted). -/
structure ModelConfig where
  id : String
  provider : MRProvider
  tier : ModelTier
  contextWindow : ℕ
  maxOutput : ℕ
  inputCost : ℚ
  outputCost : ℚ
deriving DecidableEq, Repr

/-- model-registry.ts `MODELS`: the registry record, as an ordered
key/configuration association list. -/
def MODELS : List (String × ModelConfig) :=
  [ ("claude-opus-4",
      { id := "claude-opus-4-20250514", provider := .anthropic, tier := .flagship,
        contextWindow := 200000, maxOutput := 32000,
        inputCost := 15, outputCost := 75 }),
    ("claude-sonnet-4",
      { id := "claude-sonnet-4-20250514", provider := .anthropic, tier := .balanced,
        contextWindow := 200000, maxOutput := 16000,
        inputCost := 3, outputCost := 15 }),
    ("claude-haiku-3.5",
      { id := "claude-3-5-haiku-20241022", provider := .anthropic, tier := .fast,
        contextWindow := 200000, maxOutput := 8192,
        inputCost := 8 / 10, outputCost := 4 }),
    ("gpt-4o",
      { id := "gpt-4o", provider := .openai, tier := .balanced,
        contextWindow := 128000, maxOutput := 16384,
        inputCost := 25 / 10, outputCost := 10 }),
    ("gpt-4o-mini",
      { id := "gpt-4o-mini", provider := .openai, tier := .fast,
        contextWindow := 128000, maxOutput := 16384,
        inputCost := 15 / 100, outputCost := 6 / 10 }),
    ("gemini-1.5-pro",
      { id := "gemini-1.5-pro", provider := .google, tier := .balanced,
        contextWindow := 2000000, maxOutput := 8192,
        inputCost := 125 / 100, outputCost := 5 }),
    ("gemini-1.5-flash",
      { id := "gemini-1.5-flash", provider := .google, tier := .fast,
        contextWindow := 1000000, maxOutput := 8192,
        inputCost := 75 / 1000, outputCost := 3 / 10 }) ]

/-- JavaScript record lookup `MODELS[modelKey]`. -/
def findModel (modelKey : String) : Option ModelConfig :=
  (MODELS.find? (fun p => p.1 == modelKey)).map (·.2)

/-- model-registry.ts `estimateCost`: throws `Unknown model` for an
unregistered key, else per-million-token linear pricing. -/
def estimateCost (modelKey : String) (inputTokens outputTokens : ℚ) :
    Except JsError ℚ :=
  match findModel modelKey with
  | none => .error { status := none, message := "Unknown model: " ++ modelKey }
  | some model =>
      .ok (inputTokens / 1000000 * model.inputCost
            + outputTokens / 1000000 * model.outputCost)

-- =============================================================================
-- providers.ts: AnthropicProvider
-- =============================================================================

namespace AnthropicProvider

/-- Constructor-time state of `AnthropicProvider`: whether the API key was
resolvable (`client !== null`) and the two configured model ids. -/
structure State where
  clientConfigured : Bool
  primaryModel : String := "claude-sonnet-4-20250514"
  fallbackModel : String := "claude-3-5-haiku-20241022"
deriving DecidableEq, Repr

/-- One raw response from `client.messages.create`: whether `content[0]` has
`type === 'text'`, its text, and the reported token usage (always present in
the Anthropic response shape). Console warnings about truncation are
side-effect-free and elided. -/
structure Response where
  contentIsText : Bool
  text : String
  inputTokens : ℕ
  outputTokens : ℕ
deriving DecidableEq, Repr

/-- The retryable-error test of the `catch` block in `AnthropicProvider.chat`:
`error?.status === 429 || error?.status === 503`. -/
def isRetryable (e : JsError) : Bool :=
  e.status == some 429 || e.status == some 503

/-- `AnthropicProvider.chatWithModel`: run one call against `model` (the
call's outcome is the `outcome` argument) and translate the response,
throwing on a non-text response; no retry logic of its own. -/
def chatWithModel (outcome : Except JsError Response) (model : String) :
    Except JsError ChatResult :=
  match outcome with
  | .error e => .error e
  | .ok resp =>
      if resp.contentIsText then
        .ok { content := resp.text, provider := "Anthropic Claude", model := model,
              usage := some { inputTokens := resp.inputTokens,
                              outputTokens := resp.outputTokens } }
      else
        .error { status := none, message := "Unexpected response format from Anthropic" }

/-- `AnthropicProvider.chat`: fail when not configured; otherwise attempt the
primary model (call outcome `primaryOutcome`), and on a retryable failure
re-issue once against the fallback model (call outcome `fallbackOutcome`),
whose result is returned as is. -/
def chat (st : State) (primaryOutcome fallbackOutcome : Except JsError Response) :
    Except JsError ChatResult :=
  if st.clientConfigured then
    match chatWithModel primaryOutcome st.primaryModel with
    | .ok r => .ok r
    | .error e =>
        if isRetryable e then chatWithModel fallbackOutcome st.fallbackModel
        else .error e
  else
    .error { status := none, message := "Anthropic API key not configured" }

end AnthropicProvider

-- =============================================================================
-- providers.ts: OpenAIProvider
-- =============================================================================

namespace OpenAIProvider

/-- Constructor-time state of `OpenAIProvider`. -/
structure State where
  clientConfigured : Bool
  primaryModel : String := "gpt-4o"
  fallbackModel : String := "gpt-4o-mini"
deriving DecidableEq, Repr

/-- One raw response from `chat.completions.create`: the first choice's
message content (`undefined` or empty string are both falsy in the source's
check) and the optional usage block. -/
structure Response where
  content : Option String
  usage : Option Usage
deriving DecidableEq, Repr

/-- The retryable-error test of the `catch` block in `OpenAIProvider.chat`:
`error?.status === 429 || error?.status === 503`. -/
def isRetryable (e : JsError) : Bool :=
  e.status == some 429 || e.status == some 503

/-- `OpenAIProvider.chatWithModel`: the fallback-path call; note the source
does not re-check the content here and substitutes `''` for missing content. -/
def chatWithModel (outcome : Except JsError Response) (model : String) :
    Except JsError ChatResult :=
  match outcome with
  | .error e => .error e
  | .ok resp =>
      .ok { content := resp.content.getD "", provider := "OpenAI GPT", model := model,
            usage := resp.usage }

/-- The primary-path response handling inside `OpenAIProvider.chat`'s `try`:
throws when `choice?.message?.content` is falsy. -/
def primaryAttempt (outcome : Except JsError Response) (model : String) :
    Except JsError ChatResult :=
  match outcome with
  | .error e => .error e
  | .ok resp =>
      if jsOrStr resp.content "" = "" then
        .error { status := none, message := "Unexpected response format from OpenAI" }
      else
        .ok { content := resp.content.getD "", provider := "OpenAI GPT", model := model,
              usage := resp.usage }

/-- `OpenAIProvider.chat`: fail when not configured; otherwise attempt the
primary model and on a retryable failure re-issue once against the fallback
model via `chatWithModel`. -/
def chat (st : State) (primaryOutcome fallbackOutcome : Except JsError Response) :
    Except JsError ChatResult :=
  if st.clientConfigured then
    match primaryAttempt primaryOutcome st.primaryModel with
    | .ok r => .ok r
    | .error e =>
        if isRetryable e then chatWithModel fallbackOutcome st.fallbackModel
        else .error e
  else
    .error { status := none, message := "OpenAI API key not configured" }

end OpenAIProvider

-- =============================================================================
-- providers.ts: GeminiProvider
-- =============================================================================

namespace GeminiProvider

/-- Constructor-time state of `GeminiProvider`. -/
structure State where
  clientConfigured : Bool
  primaryModel : String := "gemini-1.5-pro"
  fallbackModel : String := "gemini-1.5-flash"
deriving DecidableEq, Repr

/-- The optional `usageMetadata` block of a Gemini response; the token count
fields are themselves optional (`|| 0` applied by the adapter). -/
structure UsageMetadata where
  promptTokenCount : Option ℕ
  candidatesTokenCount : Option ℕ
deriving DecidableEq, Repr

/-- One raw Gemini response: the text and optional usage metadata. -/
structure Response where
  text : String
  usageMetadata : Option UsageMetadata
deriving DecidableEq, Repr

/-- The retryable-error test of the `catch` block in `GeminiProvider.chat`:
`error?.status === 429 || error?.message?.includes('quota')` — unlike the
other two adapters, a 503 status is NOT retryable here unless the message
happens to contain `quota`. -/
def isRetryable (e : JsError) : Bool :=
  e.status == some 429 || strContains e.message "quota"

/-- Translate one Gemini response into a `ChatResult` for `model`. -/
def toResult (resp : Response) (model : String) : ChatResult :=
  { content := resp.text, provider := "Google Gemini", model := model,
    usage := resp.usageMetadata.map (fun u =>
      { inputTokens := u.promptTokenCount.getD 0,
        outputTokens := u.candidatesTokenCount.getD 0 }) }

/-- `GeminiProvider.chatWithModel`: the fallback-path call, no retry logic. -/
def chatWithModel (outcome : Except JsError Response) (model : String) :
    Except JsError ChatResult :=
  match outcome with
  | .error e => .error e
  | .ok resp => .ok (toResult resp model)

/-- `GeminiProvider.chat`: fail when not configured; otherwise attempt the
primary model and on a retryable failure (429 or quota message) re-issue once
against the fallback model. -/
def chat (st : State) (primaryOutcome fallbackOutcome : Except JsError Response) :
    Except JsError ChatResult :=
  if st.clientConfigured then
    match chatWithModel primaryOutcome st.primaryModel with
    | .ok r => .ok r
    | .error e =>
        if isRetryable e then chatWithModel fallbackOutcome st.fallbackModel
        else .error e
  else
    .error { status := none, message := "Google AI API key not configured" }

end GeminiProvider

-- =============================================================================
-- providers.ts: ProviderManager
-- =============================================================================

namespace ProviderManager

/-- Each available adapter is represented by the outcome its `chat` produces
for the request at hand (the outcome carries the adapter's own
`provider`/`model` fields on success). -/
abbrev AdapterOutcome := Except JsError ChatResult

/-- The loop body of `ProviderManager.chat`: try adapters in order, keeping
the last observed error; when exhausted, throw `lastError` (or, were it
somehow unset, the aggregate `All AI providers failed` error). -/
def chatGo (lastError : Option JsError) : List AdapterOutcome → Except JsError ChatResult
  | [] => .error (lastError.getD { status := none, message := "All AI providers failed" })
  | a :: rest =>
      match a with
      | .ok r => .ok r
      | .error e => chatGo (some e) rest

/-- `ProviderManager.chat`: throw immediately when no adapter is available,
else first-success-wins over the ordered adapter list. -/
def chat (adapters : List AdapterOutcome) : Except JsError ChatResult :=
  if adapters.isEmpty then
    .error { status := none,
             message := "No AI providers available. Please configure API keys." }
  else
    chatGo none adapters

end ProviderManager

-- =============================================================================
-- router.ts: types and default signal configuration
-- =============================================================================

/-- router.ts `RouterInput.mode` (`input.mode || 'standard'` already applied). -/
inductive Mode
  | research
  | standard
deriving DecidableEq, Repr

/-- router.ts `RouterDecision` (the `timestamp: Date` field, pure wall-clock
observability, is elided; `latencyMs` stays optional as in the source type). -/
structure RouterDecision where
  route : Route
  confidence : ℚ
  reasoning : String
  complexitySignals : List String
  bypassed : Bool
  latencyMs : Option ℚ
deriving DecidableEq, Repr

/-- router.ts `RouterStats`. -/
structure RouterStats where
  totalRouted : ℕ
  bypassedCount : ℕ
  routeDistribution : Route → ℕ
  avgLatencyMs : ℚ
  avgConfidence : ℚ

/-- router.ts merged `RouterConfig`: the three keyword-signal lists, and the
`simplePatterns.some(p => p.test(query))` regular-expression check modelled
as an opaque Boolean predicate on the query (the regex engine is a JavaScript
builtin; every claim proved below holds for every such predicate). -/
structure RouterConfig where
  complexSignals : List String
  researchSignals : List String
  creativeSignals : List String
  simplePatternTest : String → Bool

/-- router.ts `DEFAULT_COMPLEX_SIGNALS`. -/
def DEFAULT_COMPLEX_SIGNALS : List String :=
  ["compare", "contrast", "analyze", "explain why", "explain how",
   "how does", "what if", "relationship between", "implications",
   "trade-offs", "advantages", "disadvantages", "pros and cons",
   "difference between", "similar to", "versus", "vs",
   "in-depth", "detailed", "comprehensive", "thoroughly",
   "multiple", "several", "various", "all the"]

/-- router.ts `DEFAULT_RESEARCH_SIGNALS`. -/
def DEFAULT_RESEARCH_SIGNALS : List String :=
  ["methodology", "approach", "theory", "concept", "framework",
   "hypothesis", "findings", "results", "conclusion", "evidence",
   "literature", "study", "research", "paper", "article",
   "according to", "based on", "in the context of"]

/-- router.ts `DEFAULT_CREATIVE_SIGNALS`. -/
def DEFAULT_CREATIVE_SIGNALS : List String :=
  ["imagine", "what kind of", "possibilities", "ideas for",
   "brainstorm", "creative", "innovative", "future",
   "could", "might", "potential", "explore"]

-- =============================================================================
-- router.ts: IntelligentRouter
-- =============================================================================

namespace IntelligentRouter

/-- Number of maximal non-whitespace runs in a character list (the fold keeps
a flag recording whether the previous character sat inside a run). -/
def countRuns (l : List Char) : ℕ :=
  (l.foldl
    (fun (acc : ℕ × Bool) c =>
      if c.isWhitespace then (acc.1, false)
      else if acc.2 then acc else (acc.1 + 1, true))
    (0, false)).1

/-- Word count as computed by `query.trim().split(/\s+/).length`: the number
of maximal non-whitespace runs, except that a blank (or all-whitespace)
string yields the singleton `[""]`, hence count 1. -/
def wordCount (query : String) : ℕ :=
  let runs := countRuns query.toList
  if runs = 0 then 1 else runs

/-- JavaScript `query.toLowerCase()`, computed characterwise. -/
def lowerStr (s : String) : String :=
  ⟨s.toList.map Char.toLower⟩

/-- `IntelligentRouter.hasComplexSignals`: some configured complexity signal
occurs in the lowercased query. -/
def hasComplexSignals (cfg : RouterConfig) (query : String) : Bool :=
  cfg.complexSignals.any (fun signal => strContains (lowerStr query) signal)

/-- `IntelligentRouter.hasResearchSignals`. -/
def hasResearchSignals (cfg : RouterConfig) (query : String) : Bool :=
  cfg.researchSignals.any (fun signal => strContains (lowerStr query) signal)

/-- `IntelligentRouter.hasCreativeSignals`. -/
def hasCreativeSignals (cfg : RouterConfig) (query : String) : Bool :=
  cfg.creativeSignals.any (fun signal => strContains (lowerStr query) signal)

/-- `IntelligentRouter.shouldBypass`: never in research mode; else `fast` for
a query of fewer than 8 words with no complexity signal matching a simple
pattern, or for any query of at most 5 words with no complexity signal. -/
def shouldBypass (cfg : RouterConfig) (query : String) (mode : Mode) : Option Route :=
  if mode = Mode.research then none
  else if wordCount query < 8 ∧ hasComplexSignals cfg query = false
          ∧ cfg.simplePatternTest query = true then
    some Route.fast
  else if wordCount query ≤ 5 ∧ hasComplexSignals cfg query = false then
    some Route.fast
  else none

/-- The structured object recovered by `JSON.parse` from the classifier's
response, before validation: every field may be absent, and the `route` field
may hold an arbitrary string. Numeric JSON fields are modelled as rationals. -/
structure RawDecision where
  route : Option String
  confidence : Option ℚ
  reasoning : String
  complexity_signals : Option (List String)
deriving DecidableEq, Repr

/-- The validated routing fields produced by
`IntelligentRouter.parseRouterResponse`. -/
structure ParsedRouterResponse where
  route : Route
  confidence : ℚ
  reasoning : String
  complexity_signals : List String
deriving DecidableEq, Repr

/-- The five strings of `validRoutes` in `parseRouterResponse`. -/
def validRouteNames : List String :=
  ["fast", "standard", "deep", "creative", "research"]

/-- Decode one of the five valid route strings (defaulting to `standard`,
which `parseRouterResponse` has already forced for anything else). -/
def toRoute (s : String) : Route :=
  if s = "fast" then Route.fast
  else if s = "deep" then Route.deep
  else if s = "creative" then Route.creative
  else if s = "research" then Route.research
  else Route.standard

/-- `IntelligentRouter.parseRouterResponse`: the argument is the outcome of
extracting the first `{...}` block and `JSON.parse`-ing it (`none` covers
both no-JSON-found and a parse exception). A missing or invalid route is
coerced to `standard`; the confidence is defaulted (`|| 7 / 10`) and clamped to
`[0, 1]`; a parse failure yields the fixed `standard`/`5 / 10` decision. -/
def parseRouterResponse (parsed : Option RawDecision) : ParsedRouterResponse :=
  match parsed with
  | none =>
      { route := Route.standard, confidence := 5 / 10,
        reasoning := "Failed to parse router response", complexity_signals := [] }
  | some raw =>
      let route :=
        match raw.route with
        | some s => if validRouteNames.contains s then toRoute s else Route.standard
        | none => Route.standard
      { route := route,
        confidence := max 0 (min 1 (jsOrQ raw.confidence (7 / 10))),
        reasoning := raw.reasoning,
        complexity_signals := raw.complexity_signals.getD [] }

/-- Outcome of the tier-2 remote classification call: `failed` when the call
itself threw (network/backend error, or a non-text content block), otherwise
the JSON-extraction outcome of the returned text. -/
inductive LlmOutcome
  | failed
  | responded (parsed : Option RawDecision)

/-- `IntelligentRouter.updateStats`: increment total, per-route and bypass
counters and fold the decision into the running averages with the
incremental update `((avg * (n - 1)) + x) / n`. -/
def updateStats (stats : RouterStats) (decision : RouterDecision) : RouterStats :=
  { totalRouted := stats.totalRouted + 1
    bypassedCount := stats.bypassedCount + (if decision.bypassed then 1 else 0)
    routeDistribution := fun r =>
      if r = decision.route then stats.routeDistribution r + 1
      else stats.routeDistribution r
    avgLatencyMs :=
      (stats.avgLatencyMs * stats.totalRouted + (decision.latencyMs.getD 0))
        / (stats.totalRouted + 1 : ℚ)
    avgConfidence :=
      (stats.avgConfidence * stats.totalRouted + decision.confidence)
        / (stats.totalRouted + 1 : ℚ) }

/-- The constructor-time statistics (also the `resetStats` value). -/
def initialStats : RouterStats :=
  { totalRouted := 0, bypassedCount := 0, routeDistribution := fun _ => 0,
    avgLatencyMs := 0, avgConfidence := 0 }

/-- `IntelligentRouter.heuristicRoute`: the fixed-priority deterministic
fallback; returns the decision paired with the stats after its
`updateStats` call. `elapsed` stands for `Date.now() - startTime`. -/
def heuristicRoute (cfg : RouterConfig) (stats : RouterStats) (query : String)
    (mode : Mode) (elapsed : ℚ) : RouterDecision × RouterStats :=
  let lowerQuery := lowerStr query
  let decision : RouterDecision :=
    if mode = Mode.research then
      if hasResearchSignals cfg query then
        { route := Route.research, confidence := 85 / 100,
          reasoning := "Research mode with research-related signals",
          complexitySignals := ["research_mode", "research_signals"],
          bypassed := false, latencyMs := some elapsed }
      else
        { route := Route.standard, confidence := 75 / 100,
          reasoning := "Research mode with general query",
          complexitySignals := ["research_mode"],
          bypassed := false, latencyMs := some elapsed }
    else if hasCreativeSignals cfg query then
      { route := Route.creative, confidence := 8 / 10,
        reasoning := "Query contains creative/exploratory language",
        complexitySignals := cfg.creativeSignals.filter (fun s => strContains lowerQuery s),
        bypassed := false, latencyMs := some elapsed }
    else if hasComplexSignals cfg query then
      { route := Route.deep, confidence := 8 / 10,
        reasoning := "Query contains complexity signals",
        complexitySignals := cfg.complexSignals.filter (fun s => strContains lowerQuery s),
        bypassed := false, latencyMs := some elapsed }
    else if wordCount query < 10 ∧ cfg.simplePatternTest query = true then
      { route := Route.fast, confidence := 85 / 100,
        reasoning := "Simple query pattern detected",
        complexitySignals := ["simple_pattern"],
        bypassed := false, latencyMs := some elapsed }
    else
      { route := Route.standard, confidence := 7 / 10,
        reasoning := "Heuristic routing based on query analysis",
        complexitySignals := [],
        bypassed := false, latencyMs := some elapsed }
  (decision, updateStats stats decision)

/-- `IntelligentRouter.route`: tier 1 bypass, then tier 2 backend-assisted
classification when a client is configured (`llm` is that call's outcome),
then the tier-3 heuristic. Every branch pairs its decision with the stats
after the single `updateStats` call it performs. -/
def route (cfg : RouterConfig) (stats : RouterStats) (query : String) (mode : Mode)
    (hasClient : Bool) (llm : LlmOutcome) (elapsed : ℚ) :
    RouterDecision × RouterStats :=
  match shouldBypass cfg query mode with
  | some bypassRoute =>
      let decision : RouterDecision :=
        { route := bypassRoute, confidence := 95 / 100,
          reasoning := "Query matched simple pattern - router bypassed",
          complexitySignals := [], bypassed := true, latencyMs := some elapsed }
      (decision, updateStats stats decision)
  | none =>
      if hasClient then
        match llm with
        | .failed => heuristicRoute cfg stats query mode elapsed
        | .responded parsed =>
            let v := parseRouterResponse parsed
            let decision : RouterDecision :=
              { route := v.route, confidence := v.confidence,
                reasoning := v.reasoning, complexitySignals := v.complexity_signals,
                bypassed := false, latencyMs := some elapsed }
            (decision, updateStats stats decision)
      else
        heuristicRoute cfg stats query mode elapsed

end IntelligentRouter

-- =============================================================================
-- executor.ts
-- =============================================================================

/-- providers.ts `Message.role`. -/
inductive Role
  | user
  | assistant
deriving DecidableEq, Repr

/-- providers.ts `Message`. -/
structure Message where
  role : Role
  content : String
deriving DecidableEq, Repr

/-- executor.ts `ExecutionContext` (the fields `execute` reads; `mode` and
`metadata` are passed through untouched and elided). -/
structure ExecutionContext where
  query : String
  routerDecision : Option RouterDecision
  systemPrompt : Option String
  conversationHistory : List Message
  retrievedContext : Option String
deriving DecidableEq, Repr

/-- executor.ts `ExecutionResult.timing`. -/
structure ExecTiming where
  totalMs : ℚ
  routingMs : Option ℚ
  generationMs : ℚ
deriving DecidableEq, Repr

/-- executor.ts `ExecutionResult.costs`. -/
structure ExecCosts where
  estimated : ℚ
  inputTokens : ℕ
  outputTokens : ℕ
deriving DecidableEq, Repr

/-- executor.ts `ExecutionResult.metadata`. -/
structure ExecMetadata where
  fallbackUsed : Bool
  fallbackReason : Option String
  routerBypassed : Option Bool
deriving DecidableEq, Repr

/-- executor.ts `ExecutionResult`. -/
structure ExecutionResult where
  answer : String
  route : Route
  model : String
  provider : String
  confidence : ℚ
  timing : ExecTiming
  costs : ExecCosts
  metadata : ExecMetadata
deriving DecidableEq, Repr

namespace RouteExecutor

/-- executor.ts `DEFAULT_SYSTEM_PROMPTS`. -/
def DEFAULT_SYSTEM_PROMPTS : Route → String
  | Route.fast =>
      "You are a helpful AI assistant. Provide quick, direct answers to simple questions.\nBe concise and factual. Use the provided context to answer accurately.\nFormat responses with markdown when helpful."
  | Route.standard =>
      "You are a helpful AI assistant. Provide balanced, well-structured responses.\nYour answers should be:\n- Clear and informative\n- Based on provided context\n- Under 200 words unless more detail is needed\nUse markdown formatting for readability."
  | Route.deep =>
      "You are an AI assistant providing in-depth analysis.\nFor this complex query:\n- Provide thorough, well-structured analysis\n- Draw connections between different concepts\n- Include specific details and examples\n- Structure your response with clear sections\nBase your response on provided context. Acknowledge limitations if context is insufficient."
  | Route.creative =>
      "You are an AI assistant helping explore possibilities and ideas.\nFor this exploratory question:\n- Think creatively about possibilities\n- Suggest innovative approaches\n- Be enthusiastic but grounded\n- Encourage further exploration\nUse context as a foundation for creative applications."
  | Route.research =>
      "You are a research assistant specializing in deep analysis.\nYour responses should be:\n- Academic but approachable\n- Precise in attributing claims\n- Helpful in explaining concepts in depth\n- Encouraging of critical thinking\nClearly distinguish between provided information and exploratory discussion."

/-- `RouteExecutor.buildMessages`: prior conversation turns followed by one
new user turn, whose content is the fixed context-then-question template when
retrieved context is present. -/
def buildMessages (ctx : ExecutionContext) : List Message :=
  let userMessage :=
    match ctx.retrievedContext with
    | some c => "Context:\n" ++ c ++ "\n\nQuestion: " ++ ctx.query
    | none => ctx.query
  ctx.conversationHistory ++ [{ role := Role.user, content := userMessage }]

/-- `RouteExecutor.estimateTokens`: `Math.ceil(text.length / 4)`. -/
def estimateTokens (text : String) : ℕ :=
  (text.length + 3) / 4

/-- `RouteExecutor.estimateCostFromTokens`: registry lookup by the returned
model identifier, absorbing the `Unknown model` failure into the fixed
default price pair (USD 3 / 15 per 1M input/output tokens). -/
def estimateCostFromTokens (model : String) (inputTokens outputTokens : ℕ) : ℚ :=
  match estimateCost model inputTokens outputTokens with
  | .ok c => c
  | .error _ =>
      (inputTokens : ℚ) / 1000000 * 3 + (outputTokens : ℚ) / 1000000 * 15

/-- `RouteExecutor.execute`: the Provider Manager call's outcome is the
`outcome` argument (a thrown error is rethrown after flagging the local
`fallbackUsed` variable, so it never reaches a returned result); `totalMs` and
`generationMs` stand for the wall-clock readings of the `TimingTracker`. -/
def execute (route : Route) (ctx : ExecutionContext)
    (outcome : Except JsError ChatResult) (totalMs generationMs : ℚ) :
    Except JsError ExecutionResult :=
  match outcome with
  | .error e => .error e
  | .ok result =>
      let messages := buildMessages ctx
      let systemPrompt := jsOrStr ctx.systemPrompt (DEFAULT_SYSTEM_PROMPTS route)
      let inputTokens :=
        jsOrNat (result.usage.map Usage.inputTokens)
          (estimateTokens (systemPrompt ++ String.join (messages.map Message.content)))
      let outputTokens :=
        jsOrNat (result.usage.map Usage.outputTokens) (estimateTokens result.content)
      .ok
        { answer := result.content
          route := route
          model := result.model
          provider := result.provider
          confidence := jsOrQ (ctx.routerDecision.map RouterDecision.confidence) (8 / 10)
          timing :=
            { totalMs := totalMs
              routingMs := ctx.routerDecision.bind RouterDecision.latencyMs
              generationMs := generationMs }
          costs :=
            { estimated := estimateCostFromTokens result.model inputTokens outputTokens
              inputTokens := inputTokens
              outputTokens := outputTokens }
          metadata :=
            { fallbackUsed := false
              fallbackReason := none
              routerBypassed := ctx.routerDecision.map RouterDecision.bypassed } }

end RouteExecutor

-- =============================================================================
-- Theorems
-- =============================================================================

lemma chatGo_skip_errors (pre : List ProviderManager.AdapterOutcome)
    (r : ChatResult) (post : List ProviderManager.AdapterOutcome) :
    ∀ lastError, (∀ a ∈ pre, ∃ e, a = .error e) →
      ProviderManager.chatGo lastError (pre ++ .ok r :: post) = .ok r := by
  induction pre with
  | nil => intro lastError _; rfl
  | cons a pre ih =>
      intro lastError hfail
      obtain ⟨e, he⟩ := hfail a (List.mem_cons_self a pre)
      rw [he]
      simpa [ProviderManager.chatGo] using
        ih (some e) (fun b hb => hfail b (List.mem_cons_of_mem a hb))

lemma chatGo_all_errors (es : List JsError) (e : JsError) :
    ∀ lastError,
      ProviderManager.chatGo lastError ((es ++ [e]).map Except.error) = .error e := by
  induction es with
  | nil => intro lastError; rfl
  | cons a es ih => intro lastError; simpa [ProviderManager.chatGo] using ih (some a)

/-- C1: `ProviderManager.chat` on an empty adapter list fails immediately with
the no-providers-available error; with some prefix of failing adapters
followed by a succeeding one it returns that adapter's result (its
provider/model fields included); and when every adapter fails it raises the
last adapter's error. -/
theorem providerManager_chat_spec :
    (ProviderManager.chat [] =
       .error { status := none,
                message := "No AI providers available. Please configure API keys." }) ∧
    (∀ (pre : List ProviderManager.AdapterOutcome) (r : ChatResult)
       (post : List ProviderManager.AdapterOutcome),
       (∀ a ∈ pre, ∃ e, a = .error e) →
       ProviderManager.chat (pre ++ .ok r :: post) = .ok r) ∧
    (∀ (es : List JsError) (e : JsError),
       ProviderManager.chat ((es ++ [e]).map Except.error) = .error e) := by
  refine ⟨rfl, ?_, ?_⟩
  · intro pre r post hfail
    have hne : (pre ++ .ok r :: post).isEmpty = false := by
      cases pre <;> rfl
    simp only [ProviderManager.chat, hne, Bool.false_eq_true, if_false]
    exact chatGo_skip_errors pre r post none hfail
  · intro es e
    have hne : (((es ++ [e]).map Except.error :
        List ProviderManager.AdapterOutcome)).isEmpty = false := by
      cases es <;> rfl
    simp only [ProviderManager.chat, hne, Bool.false_eq_true, if_false]
    exact chatGo_all_errors es e none

/-- Witness for C1 at concrete adapter lists: one failing adapter before a
success, and a list of two failures. -/
theorem providerManager_chat_spec_witness :
    ProviderManager.chat
      [.error ⟨some 500, "boom"⟩, .ok ⟨"hello", "OpenAI GPT", "gpt-4o", none⟩,
       .error ⟨none, "late"⟩]
      = .ok ⟨"hello", "OpenAI GPT", "gpt-4o", none⟩ ∧
    ProviderManager.chat [.error ⟨some 500, "first"⟩, .error ⟨none, "second"⟩]
      = .error ⟨none, "second"⟩ := by
  constructor
  · exact providerManager_chat_spec.2.1 [.error ⟨some 500, "boom"⟩]
      ⟨"hello", "OpenAI GPT", "gpt-4o", none⟩ [.error ⟨none, "late"⟩]
      (by intro a ha; simp only [List.mem_singleton] at ha; exact ⟨_, ha⟩)
  · exact providerManager_chat_spec.2.2 [⟨some 500, "first"⟩] ⟨none, "second"⟩

/-- C7: for every registered model key, `estimateCost` is the per-million
linear pricing formula, and in particular doubling both token counts doubles
the estimate. -/
theorem estimateCost_linear (modelKey : String) (m : ModelConfig)
    (hm : findModel modelKey = some m) (x y : ℚ) :
    estimateCost modelKey (2 * x) (2 * y)
        = (estimateCost modelKey x y).map (fun c => 2 * c) ∧
    estimateCost modelKey x y
        = .ok (x / 1000000 * m.inputCost + y / 1000000 * m.outputCost) := by
  unfold estimateCost
  rw [hm]
  refine ⟨?_, rfl⟩
  simp only [Except.map]
  congr 1
  ring

/-- Witness for C7 on the registered key `gemini-1.5-flash` with one and two
million-token pairs. -/
theorem estimateCost_linear_witness :
    estimateCost "gemini-1.5-flash" 2000000 1000000 = .ok (9 / 20) ∧
    estimateCost "gemini-1.5-flash" (2 * 2000000) (2 * 1000000) = .ok (2 * (9 / 20)) := by
  have h := estimateCost_linear "gemini-1.5-flash"
    { id := "gemini-1.5-flash", provider := .google, tier := .fast,
      contextWindow := 1000000, maxOutput := 8192,
      inputCost := 75 / 1000, outputCost := 3 / 10 }
    rfl 2000000 1000000
  constructor
  · rw [h.2]; simp only [Except.ok.injEq]; norm_num
  · rw [h.1, h.2]; simp only [Except.map, Except.ok.injEq]; norm_num

/-- C8: `RouteExecutor.estimateCostFromTokens` never surfaces the
unknown-model error: an unregistered model identifier is absorbed into the
fixed USD 3 / 15 per-million default pair, and a registered identifier
uses its registry pricing. (Totality — the return type is a plain rational —
is what makes the `UnknownModel` failure invisible to callers of `execute`.) -/
theorem estimateCostFromTokens_fallback :
    (∀ (model : String) (i o : ℕ), findModel model = none →
       RouteExecutor.estimateCostFromTokens model i o =
         (i : ℚ) / 1000000 * 3 + (o : ℚ) / 1000000 * 15) ∧
    (∀ (model : String) (i o : ℕ) (m : ModelConfig), findModel model = some m →
       RouteExecutor.estimateCostFromTokens model i o =
         (i : ℚ) / 1000000 * m.inputCost + (o : ℚ) / 1000000 * m.outputCost) := by
  constructor
  · intro model i o hm
    unfold RouteExecutor.estimateCostFromTokens estimateCost
    rw [hm]
  · intro model i o m hm
    unfold RouteExecutor.estimateCostFromTokens estimateCost
    rw [hm]

/-- Witness for C8: the executor looks up the returned model identifier
`claude-sonnet-4-20250514`, which is not a registry key (the key is
`claude-sonnet-4`), and silently applies the default price pair. -/
theorem estimateCostFromTokens_fallback_witness :
    RouteExecutor.estimateCostFromTokens "claude-sonnet-4-20250514" 1000000 1000000 = 18 := by
  have h := estimateCostFromTokens_fallback.1 "claude-sonnet-4-20250514" 1000000 1000000 rfl
  rw [h]; norm_num

/-- C10: every `ExecutionResult` actually returned by `RouteExecutor.execute`
has `metadata.fallbackUsed = false` and no `fallbackReason`; the only path
that flags a fallback rethrows the provider error, so callers can never
observe `fallbackUsed = true` in a returned result. -/
theorem execute_no_fallback_in_result :
    (∀ (route : Route) (ctx : ExecutionContext) (outcome : Except JsError ChatResult)
       (totalMs generationMs : ℚ) (r : ExecutionResult),
       RouteExecutor.execute route ctx outcome totalMs generationMs = .ok r →
       r.metadata.fallbackUsed = false ∧ r.metadata.fallbackReason = none) ∧
    (∀ (route : Route) (ctx : ExecutionContext) (e : JsError) (totalMs generationMs : ℚ),
       RouteExecutor.execute route ctx (.error e) totalMs generationMs = .error e) := by
  constructor
  · intro route ctx outcome totalMs generationMs r h
    cases outcome with
    | error e => simp [RouteExecutor.execute] at h
    | ok result =>
        simp only [RouteExecutor.execute, Except.ok.injEq] at h
        rw [← h]
        exact ⟨rfl, rfl⟩
  · intro route ctx e totalMs generationMs
    rfl

/-- Witness for C10 at a concrete successful execution. -/
theorem execute_no_fallback_in_result_witness :
    (RouteExecutor.execute Route.fast
        { query := "hi", routerDecision := none, systemPrompt := some "s",
          conversationHistory := [], retrievedContext := none }
        (.ok { content := "ok", provider := "P", model := "unknown-model",
               usage := some { inputTokens := 1, outputTokens := 2 } })
        100 50).map
      (fun r => (r.metadata.fallbackUsed, r.metadata.fallbackReason))
      = Except.ok (false, none) := by
  obtain ⟨h1, h2⟩ := execute_no_fallback_in_result.1 Route.fast
      { query := "hi", routerDecision := none, systemPrompt := some "s",
        conversationHistory := [], retrievedContext := none }
      (.ok { content := "ok", provider := "P", model := "unknown-model",
             usage := some { inputTokens := 1, outputTokens := 2 } })
      100 50 _ rfl
  rw [show RouteExecutor.execute Route.fast
      { query := "hi", routerDecision := none, systemPrompt := some "s",
        conversationHistory := [], retrievedContext := none }
      (.ok { content := "ok", provider := "P", model := "unknown-model",
             usage := some { inputTokens := 1, outputTokens := 2 } })
      100 50 = .ok _ from rfl]
  simp only [Except.map, h1, h2]

/-- C2 (amended): each adapter attempts its configured fallback model exactly
once and only on its own retryable-error predicate — status 429 or 503 for the
Anthropic and OpenAI adapters, but status 429 or a message containing `quota`
for the Gemini adapter; when a retry fires, its result (the fallback model id
in the `model` field on success, the fallback call's error on failure — no
further recursion) is returned as is; a non-retryable error propagates with no
fallback attempt. -/
theorem adapter_single_retry :
    (∀ (st : AnthropicProvider.State) (po fo : Except JsError AnthropicProvider.Response)
       (e : JsError),
       st.clientConfigured = true →
       AnthropicProvider.chatWithModel po st.primaryModel = .error e →
       AnthropicProvider.chat st po fo =
         (if AnthropicProvider.isRetryable e
          then AnthropicProvider.chatWithModel fo st.fallbackModel
          else .error e)) ∧
    (∀ (o : Except JsError AnthropicProvider.Response) (m : String) (r : ChatResult),
       AnthropicProvider.chatWithModel o m = .ok r → r.model = m) ∧
    (∀ (m : String) (e : JsError),
       AnthropicProvider.chatWithModel (.error e) m = .error e) ∧
    (∀ (st : OpenAIProvider.State) (po fo : Except JsError OpenAIProvider.Response)
       (e : JsError),
       st.clientConfigured = true →
       OpenAIProvider.primaryAttempt po st.primaryModel = .error e →
       OpenAIProvider.chat st po fo =
         (if OpenAIProvider.isRetryable e
          then OpenAIProvider.chatWithModel fo st.fallbackModel
          else .error e)) ∧
    (∀ (o : Except JsError OpenAIProvider.Response) (m : String) (r : ChatResult),
       OpenAIProvider.chatWithModel o m = .ok r → r.model = m) ∧
    (∀ (m : String) (e : JsError),
       OpenAIProvider.chatWithModel (.error e) m = .error e) ∧
    (∀ (st : GeminiProvider.State) (po fo : Except JsError GeminiProvider.Response)
       (e : JsError),
       st.clientConfigured = true →
       GeminiProvider.chatWithModel po st.primaryModel = .error e →
       GeminiProvider.chat st po fo =
         (if GeminiProvider.isRetryable e
          then GeminiProvider.chatWithModel fo st.fallbackModel
          else .error e)) ∧
    (∀ (o : Except JsError GeminiProvider.Response) (m : String) (r : ChatResult),
       GeminiProvider.chatWithModel o m = .ok r → r.model = m) ∧
    (∀ (m : String) (e : JsError),
       GeminiProvider.chatWithModel (.error e) m = .error e) := by
  refine ⟨?_, ?_, ?_, ?_, ?_, ?_, ?_, ?_, ?_⟩
  · intro st po fo e hc herr
    simp only [AnthropicProvider.chat, hc, if_true, herr]
  · intro o m r h
    cases o with
    | error e => simp [AnthropicProvider.chatWithModel] at h
    | ok resp =>
        simp only [AnthropicProvider.chatWithModel] at h
        split at h
        · rw [Except.ok.injEq] at h
          rw [← h]
        · simp at h
  · intro m e; rfl
  · intro st po fo e hc herr
    simp only [OpenAIProvider.chat, hc, if_true, herr]
  · intro o m r h
    cases o with
    | error e => simp [OpenAIProvider.chatWithModel] at h
    | ok resp =>
        simp only [OpenAIProvider.chatWithModel, Except.ok.injEq] at h
        rw [← h]
  · intro m e; rfl
  · intro st po fo e hc herr
    simp only [GeminiProvider.chat, hc, if_true, herr]
  · intro o m r h
    cases o with
    | error e => simp [GeminiProvider.chatWithModel] at h
    | ok resp =>
        simp only [GeminiProvider.chatWithModel, Except.ok.injEq] at h
        rw [← h]
        rfl
  · intro m e; rfl

/-- Witness for C2 at a concrete retryable failure: the Anthropic adapter
with a 429 primary failure returns the fallback call's result, whose model
field is the fallback model id. -/
theorem adapter_single_retry_witness :
    AnthropicProvider.chat
      { clientConfigured := true, primaryModel := "p-model", fallbackModel := "f-model" }
      (.error ⟨some 429, "rate limited"⟩) (.ok ⟨true, "hello", 1, 2⟩)
      = .ok ⟨"hello", "Anthropic Claude", "f-model", some ⟨1, 2⟩⟩ := by
  have h := adapter_single_retry.1
      { clientConfigured := true, primaryModel := "p-model", fallbackModel := "f-model" }
      (.error ⟨some 429, "rate limited"⟩) (.ok ⟨true, "hello", 1, 2⟩)
      ⟨some 429, "rate limited"⟩ rfl rfl
  rw [h]
  rfl

/-- Counterexample to C2 as stated: the Gemini adapter receives a primary
failure with HTTP status 503 (message without `quota`) — a retryable error
according to the claim — yet propagates it immediately instead of returning
the fallback call's (successful) result. -/
theorem adapter_single_retry_counterexample :
    GeminiProvider.chat
      { clientConfigured := true, primaryModel := "gemini-1.5-pro",
        fallbackModel := "gemini-1.5-flash" }
      (.error ⟨some 503, "Service Unavailable"⟩) (.ok ⟨"hi", none⟩)
      = .error ⟨some 503, "Service Unavailable"⟩ ∧
    GeminiProvider.chatWithModel (.ok ⟨"hi", none⟩) "gemini-1.5-flash"
      = .ok ⟨"hi", "Google Gemini", "gemini-1.5-flash", none⟩ ∧
    (Except.error ⟨some 503, "Service Unavailable"⟩ : Except JsError ChatResult)
      ≠ .ok ⟨"hi", "Google Gemini", "gemini-1.5-flash", none⟩ := by
  refine ⟨rfl, rfl, ?_⟩
  intro h
  exact Except.noConfusion h

/-- C9 (amended): the returned confidence is the supplied `RouterDecision`'s
confidence when that confidence is nonzero, and the 8/10 default when no
decision is present or — because the source uses the falsy `||` operator —
when the supplied confidence equals 0; the routing latency is inherited
unconditionally from the supplied decision. -/
theorem execute_confidence_inherit :
    ∀ (route : Route) (ctx : ExecutionContext) (outcome : Except JsError ChatResult)
      (totalMs generationMs : ℚ) (r : ExecutionResult),
      RouteExecutor.execute route ctx outcome totalMs generationMs = .ok r →
      (r.confidence =
        match ctx.routerDecision with
        | none => 8 / 10
        | some d => if d.confidence = 0 then 8 / 10 else d.confidence) ∧
      r.timing.routingMs = ctx.routerDecision.bind RouterDecision.latencyMs := by
  intro route ctx outcome totalMs generationMs r h
  cases outcome with
  | error e => simp [RouteExecutor.execute] at h
  | ok result =>
      simp only [RouteExecutor.execute, Except.ok.injEq] at h
      rw [← h]
      refine ⟨?_, rfl⟩
      cases hd : ctx.routerDecision with
      | none => simp [hd, jsOrQ]
      | some d => simp [hd, jsOrQ]

/-- A concrete routing decision carrying the nonzero confidence 6/10 (C9
witness fixture). -/
def decisionConf06 : RouterDecision :=
  { route := Route.standard, confidence := 6 / 10, reasoning := "r",
    complexitySignals := [], bypassed := false, latencyMs := some 7 }

/-- A concrete routing decision carrying confidence 0 (C9 counterexample
fixture; such a decision is producible, since a negative classifier
confidence clamps to 0). -/
def decisionConf0 : RouterDecision :=
  { route := Route.standard, confidence := 0, reasoning := "r",
    complexitySignals := [], bypassed := false, latencyMs := some 7 }

/-- A concrete successful provider outcome (C9 fixture). -/
def chatOutcomeC9 : Except JsError ChatResult :=
  .ok { content := "ans", provider := "P", model := "m",
        usage := some { inputTokens := 10, outputTokens := 20 } }

/-- Witness for C9: a supplied decision with nonzero confidence 6/10 and
latency 7 is inherited into the result. -/
theorem execute_confidence_inherit_witness :
    (RouteExecutor.execute Route.standard
        { query := "q", routerDecision := some decisionConf06, systemPrompt := none,
          conversationHistory := [], retrievedContext := none }
        chatOutcomeC9 100 50).map (fun r => (r.confidence, r.timing.routingMs))
      = Except.ok (6 / 10, some 7) := by
  obtain ⟨h1, h2⟩ := execute_confidence_inherit Route.standard
      { query := "q", routerDecision := some decisionConf06, systemPrompt := none,
        conversationHistory := [], retrievedContext := none }
      chatOutcomeC9 100 50 _ rfl
  rw [show RouteExecutor.execute Route.standard
      { query := "q", routerDecision := some decisionConf06, systemPrompt := none,
        conversationHistory := [], retrievedContext := none }
      chatOutcomeC9 100 50 = .ok _ from rfl]
  simp only [Except.map, h1, h2, decisionConf06]
  norm_num [jsOrQ]

/-- Counterexample to C9 as stated: a `RouterDecision` with confidence 0 is
supplied, yet the returned confidence is the 8/10 default, not the supplied
value 0. -/
theorem execute_confidence_inherit_counterexample :
    (RouteExecutor.execute Route.standard
        { query := "q", routerDecision := some decisionConf0, systemPrompt := none,
          conversationHistory := [], retrievedContext := none }
        chatOutcomeC9 100 50).map ExecutionResult.confidence = Except.ok (8 / 10) ∧
    decisionConf0.confidence = 0 ∧ ((8 : ℚ) / 10 ≠ 0) := by
  refine ⟨?_, rfl, by norm_num⟩
  rw [show RouteExecutor.execute Route.standard
      { query := "q", routerDecision := some decisionConf0, systemPrompt := none,
        conversationHistory := [], retrievedContext := none }
      chatOutcomeC9 100 50 = .ok _ from rfl]
  simp [Except.map, decisionConf0, jsOrQ]

lemma heuristicRoute_bypassed_eq_false (cfg : RouterConfig) (stats : RouterStats)
    (query : String) (mode : Mode) (elapsed : ℚ) :
    (IntelligentRouter.heuristicRoute cfg stats query mode elapsed).1.bypassed = false := by
  simp only [IntelligentRouter.heuristicRoute]
  repeat' split
  all_goals rfl

/-- C5: in research mode the bypass check never fires — every decision the
router produces has `bypassed = false`, for every query, configuration,
classifier availability and classifier outcome. -/
theorem router_research_never_bypassed :
    ∀ (cfg : RouterConfig) (stats : RouterStats) (query : String) (hasClient : Bool)
      (llm : IntelligentRouter.LlmOutcome) (elapsed : ℚ),
      (IntelligentRouter.route cfg stats query Mode.research hasClient llm elapsed).1.bypassed
        = false := by
  intro cfg stats query hasClient llm elapsed
  have hb : IntelligentRouter.shouldBypass cfg query Mode.research = none := rfl
  cases llm <;> cases hasClient <;>
    simp only [IntelligentRouter.route, hb] <;>
    first
    | exact heuristicRoute_bypassed_eq_false cfg stats query Mode.research elapsed
    | rfl

/-- C4: for every non-research query of word count at most 5 that matches no
configured complexity signal, the bypass fires — the decision is route `fast`
with confidence 95/100 and `bypassed = true` — irrespective of the classifier
client, its outcome, or the simple-pattern set (so no remote call is
involved). -/
theorem router_short_query_bypass :
    ∀ (cfg : RouterConfig) (stats : RouterStats) (query : String) (hasClient : Bool)
      (llm : IntelligentRouter.LlmOutcome) (elapsed : ℚ),
      IntelligentRouter.wordCount query ≤ 5 →
      IntelligentRouter.hasComplexSignals cfg query = false →
      (IntelligentRouter.route cfg stats query Mode.standard hasClient llm elapsed).1
        = { route := Route.fast, confidence := 95 / 100,
            reasoning := "Query matched simple pattern - router bypassed",
            complexitySignals := [], bypassed := true, latencyMs := some elapsed } := by
  intro cfg stats query hasClient llm elapsed hwc hsig
  have h8 : IntelligentRouter.wordCount query < 8 := by omega
  have hmode : ¬ (Mode.standard = Mode.research) := by decide
  have hb : IntelligentRouter.shouldBypass cfg query Mode.standard = some Route.fast := by
    unfold IntelligentRouter.shouldBypass
    rw [if_neg hmode]
    by_cases hp : cfg.simplePatternTest query = true
    · rw [if_pos ⟨h8, hsig, hp⟩]
    · rw [if_neg (fun hcond => hp hcond.2.2), if_pos ⟨hwc, hsig⟩]
  simp only [IntelligentRouter.route, hb]

/-- Witness for C4: the three-word query `What is TypeScript?` with the
default signal lists bypasses to `fast`. -/
theorem router_short_query_bypass_witness :
    (IntelligentRouter.route
        { complexSignals := DEFAULT_COMPLEX_SIGNALS,
          researchSignals := DEFAULT_RESEARCH_SIGNALS,
          creativeSignals := DEFAULT_CREATIVE_SIGNALS,
          simplePatternTest := fun _ => false }
        IntelligentRouter.initialStats "What is TypeScript?" Mode.standard true
        IntelligentRouter.LlmOutcome.failed 3).1
      = { route := Route.fast, confidence := 95 / 100,
          reasoning := "Query matched simple pattern - router bypassed",
          complexitySignals := [], bypassed := true, latencyMs := some 3 } :=
  router_short_query_bypass
    { complexSignals := DEFAULT_COMPLEX_SIGNALS,
      researchSignals := DEFAULT_RESEARCH_SIGNALS,
      creativeSignals := DEFAULT_CREATIVE_SIGNALS,
      simplePatternTest := fun _ => false }
    IntelligentRouter.initialStats "What is TypeScript?" true
    IntelligentRouter.LlmOutcome.failed 3 (by decide) (by decide)

lemma heuristicRoute_confidence_bounds (cfg : RouterConfig) (stats : RouterStats)
    (query : String) (mode : Mode) (elapsed : ℚ) :
    0 ≤ (IntelligentRouter.heuristicRoute cfg stats query mode elapsed).1.confidence ∧
    (IntelligentRouter.heuristicRoute cfg stats query mode elapsed).1.confidence ≤ 1 := by
  simp only [IntelligentRouter.heuristicRoute]
  repeat' split
  all_goals norm_num

lemma parseRouterResponse_confidence_bounds (p : Option IntelligentRouter.RawDecision) :
    0 ≤ (IntelligentRouter.parseRouterResponse p).confidence ∧
    (IntelligentRouter.parseRouterResponse p).confidence ≤ 1 := by
  cases p with
  | none => norm_num [IntelligentRouter.parseRouterResponse]
  | some raw =>
      simp only [IntelligentRouter.parseRouterResponse]
      exact ⟨le_max_left 0 _, max_le (by norm_num) (min_le_left 1 _)⟩

/-- C3 (amended): every decision the router produces has a route among the
five valid routes and a confidence in `[0, 1]`; a classifier response with no
parseable JSON is coerced to route `standard` with the fixed confidence 5/10;
a parseable response whose route value is not one of the five valid names is
coerced to route `standard` but keeps its own clamped confidence
(`clamp(confidence or 7/10)` — not the fixed 5/10 the claim states). -/
theorem router_decision_valid :
    (∀ (cfg : RouterConfig) (stats : RouterStats) (query : String) (mode : Mode)
       (hasClient : Bool) (llm : IntelligentRouter.LlmOutcome) (elapsed : ℚ),
       (IntelligentRouter.route cfg stats query mode hasClient llm elapsed).1.route
           ∈ [Route.fast, Route.standard, Route.deep, Route.creative, Route.research] ∧
       0 ≤ (IntelligentRouter.route cfg stats query mode hasClient llm elapsed).1.confidence ∧
       (IntelligentRouter.route cfg stats query mode hasClient llm elapsed).1.confidence ≤ 1) ∧
    (IntelligentRouter.parseRouterResponse none =
       { route := Route.standard, confidence := 5 / 10,
         reasoning := "Failed to parse router response", complexity_signals := [] }) ∧
    (∀ raw : IntelligentRouter.RawDecision,
       (∀ s, raw.route = some s → s ∉ IntelligentRouter.validRouteNames) →
       (IntelligentRouter.parseRouterResponse (some raw)).route = Route.standard) := by
  refine ⟨?_, rfl, ?_⟩
  · intro cfg stats query mode hasClient llm elapsed
    refine ⟨?_, ?_⟩
    · cases (IntelligentRouter.route cfg stats query mode hasClient llm elapsed).1.route <;> simp
    · cases hb : IntelligentRouter.shouldBypass cfg query mode with
      | some r =>
          simp only [IntelligentRouter.route, hb]
          norm_num
      | none =>
          cases llm with
          | failed =>
              cases hasClient <;> simp only [IntelligentRouter.route, hb] <;>
                exact heuristicRoute_confidence_bounds cfg stats query mode elapsed
          | responded parsed =>
              cases hasClient with
              | false =>
                  simp only [IntelligentRouter.route, hb]
                  exact heuristicRoute_confidence_bounds cfg stats query mode elapsed
              | true =>
                  simp only [IntelligentRouter.route, hb]
                  exact parseRouterResponse_confidence_bounds parsed
  · intro raw hroute
    simp only [IntelligentRouter.parseRouterResponse]
    cases hr : raw.route with
    | none => simp [hr]
    | some s =>
        have hmem : s ∉ IntelligentRouter.validRouteNames := hroute s hr
        simp [hr, List.contains, hmem]

/-- Witness for C3 applying the invalid-route coercion at the concrete route
string `turbo`. -/
theorem router_decision_valid_witness :
    (IntelligentRouter.parseRouterResponse
        (some { route := some "turbo", confidence := some (9 / 10),
                reasoning := "looks heavy", complexity_signals := none })).route
      = Route.standard :=
  router_decision_valid.2.2
    { route := some "turbo", confidence := some (9 / 10),
      reasoning := "looks heavy", complexity_signals := none }
    (by intro s hs
        simp only [Option.some.injEq] at hs
        subst hs
        decide)

/-- Counterexample to C3 as stated: a parseable classifier response whose
route value `turbo` is invalid is coerced to route `standard`, but its
confidence is the clamped reported value 9/10, not the fixed 5/10 the claim
(and the spec sentence it quotes) assigns to malformed output. -/
theorem router_decision_valid_counterexample :
    IntelligentRouter.parseRouterResponse
        (some { route := some "turbo", confidence := some (9 / 10),
                reasoning := "looks heavy", complexity_signals := none })
      = { route := Route.standard, confidence := 9 / 10,
          reasoning := "looks heavy", complexity_signals := [] } ∧
    ((9 : ℚ) / 10 ≠ 5 / 10) := by
  constructor
  · have hc : IntelligentRouter.validRouteNames.contains "turbo" = false := by decide
    simp only [IntelligentRouter.parseRouterResponse, hc]
    norm_num [jsOrQ, min_def, max_def]
  · norm_num

lemma foldl_updateStats_total (ds : List RouterDecision) :
    ∀ s : RouterStats,
      (ds.foldl IntelligentRouter.updateStats s).totalRouted = s.totalRouted + ds.length := by
  induction ds with
  | nil => intro s; simp
  | cons d ds ih =>
      intro s
      rw [List.foldl_cons, ih]
      simp only [IntelligentRouter.updateStats, List.length_cons]
      omega

lemma updateStats_avg_mul (s : RouterStats) (d : RouterDecision) :
    (IntelligentRouter.updateStats s d).avgLatencyMs
        * ((IntelligentRouter.updateStats s d).totalRouted : ℚ)
      = s.avgLatencyMs * (s.totalRouted : ℚ) + d.latencyMs.getD 0 ∧
    (IntelligentRouter.updateStats s d).avgConfidence
        * ((IntelligentRouter.updateStats s d).totalRouted : ℚ)
      = s.avgConfidence * (s.totalRouted : ℚ) + d.confidence := by
  have hpos : ((s.totalRouted : ℚ) + 1) ≠ 0 := by positivity
  simp only [IntelligentRouter.updateStats]
  push_cast
  constructor <;> rw [div_mul_cancel₀ _ hpos]

lemma foldl_updateStats_latSum (ds : List RouterDecision) :
    ∀ s : RouterStats,
      (ds.foldl IntelligentRouter.updateStats s).avgLatencyMs
          * ((ds.foldl IntelligentRouter.updateStats s).totalRouted : ℚ)
        = s.avgLatencyMs * (s.totalRouted : ℚ)
            + (ds.map fun d => d.latencyMs.getD 0).sum := by
  induction ds with
  | nil => intro s; simp
  | cons d ds ih =>
      intro s
      rw [List.foldl_cons, ih, (updateStats_avg_mul s d).1, List.map_cons, List.sum_cons]
      ring

lemma foldl_updateStats_confSum (ds : List RouterDecision) :
    ∀ s : RouterStats,
      (ds.foldl IntelligentRouter.updateStats s).avgConfidence
          * ((ds.foldl IntelligentRouter.updateStats s).totalRouted : ℚ)
        = s.avgConfidence * (s.totalRouted : ℚ)
            + (ds.map RouterDecision.confidence).sum := by
  induction ds with
  | nil => intro s; simp
  | cons d ds ih =>
      intro s
      rw [List.foldl_cons, ih, (updateStats_avg_mul s d).2, List.map_cons, List.sum_cons]
      ring

/-- C6: every routing decision, from any tier, performs exactly one
`updateStats` call (the stats component of `route` is `updateStats` of the
decision component), and replaying any sequence of `N` decisions from the
initial statistics leaves `totalRouted = N` and stores in
`avgLatencyMs`/`avgConfidence` exactly the arithmetic means of the `N`
recorded values, computed over exact rationals (for `N = 0` both averages
are the initial 0, which Lean's `x / 0 = 0` convention also assigns to the
mean formula). -/
theorem router_stats_mean :
    (∀ (cfg : RouterConfig) (stats : RouterStats) (query : String) (mode : Mode)
       (hasClient : Bool) (llm : IntelligentRouter.LlmOutcome) (elapsed : ℚ),
       (IntelligentRouter.route cfg stats query mode hasClient llm elapsed).2 =
         IntelligentRouter.updateStats stats
           (IntelligentRouter.route cfg stats query mode hasClient llm elapsed).1) ∧
    (∀ ds : List RouterDecision,
       (ds.foldl IntelligentRouter.updateStats IntelligentRouter.initialStats).totalRouted
           = ds.length ∧
       (ds.foldl IntelligentRouter.updateStats IntelligentRouter.initialStats).avgLatencyMs
           = (ds.map fun d => d.latencyMs.getD 0).sum / (ds.length : ℚ) ∧
       (ds.foldl IntelligentRouter.updateStats IntelligentRouter.initialStats).avgConfidence
           = (ds.map RouterDecision.confidence).sum / (ds.length : ℚ)) := by
  constructor
  · intro cfg stats query mode hasClient llm elapsed
    cases llm <;> cases hasClient <;> unfold IntelligentRouter.route <;> split <;> rfl
  · intro ds
    have htot := foldl_updateStats_total ds IntelligentRouter.initialStats
    simp only [IntelligentRouter.initialStats, Nat.zero_add] at htot
    refine ⟨htot, ?_, ?_⟩
    · rcases eq_or_ne ds.length 0 with h0 | h0
      · obtain rfl : ds = [] := List.length_eq_zero.mp h0
        simp [IntelligentRouter.initialStats]
      · have hsum := foldl_updateStats_latSum ds IntelligentRouter.initialStats
        simp only [IntelligentRouter.initialStats, Nat.cast_zero, mul_zero, zero_mul,
          zero_add] at hsum
        rw [htot] at hsum
        rw [eq_div_iff (by exact_mod_cast h0)]
        exact hsum
    · rcases eq_or_ne ds.length 0 with h0 | h0
      · obtain rfl : ds = [] := List.length_eq_zero.mp h0
        simp [IntelligentRouter.initialStats]
      · have hsum := foldl_updateStats_confSum ds IntelligentRouter.initialStats
        simp only [IntelligentRouter.initialStats, Nat.cast_zero, mul_zero, zero_mul,
          zero_add] at hsum
        rw [htot] at hsum
        rw [eq_div_iff (by exact_mod_cast h0)]
        exact hsum
